import Mathlib

/-!
Verification development for `src/shared/cryptsetup-util.c`: a thin management
layer over the libcryptsetup disk-encryption backend.  The functions under
verification are `cryptsetup_get_token_as_json`, `cryptsetup_add_token_json`,
`cryptsetup_get_keyslot_from_token`, `cryptsetup_set_minimal_pbkdf`,
`cryptsetup_log_glue`, `cryptsetup_enable_logging` and `dlopen_cryptsetup`.
External collaborators (the backend itself, the sd-json value tree, the
integer parser `safe_atoi`, and the dlopen-based symbol resolution) are
modelled explicitly; their doc comments say so.
-/

set_option autoImplicit false

/-- Errno-style error codes: the C source reports failures as negative errno
values.  `EMEDIUMTYPE` is the code the source uses for token type/shape
mismatches, `EOPNOTSUPP` for "backend unavailable", `ENOENT` for "not found",
`EINVAL` for invalid index or malformed data. -/
inductive Errno where
  | EINVAL
  | ENOENT
  | EMEDIUMTYPE
  | EOPNOTSUPP
  | ERANGE
  | ENOMEM
  | ENOSPC
  deriving DecidableEq, Repr

/-- Modelled from the spec: the external JSON value tree ("parse text to a
tree, navigate by key/index, query scalar type and string value").  Stands in
for systemd's `sd_json_variant`, which is not part of this source file. -/
inductive Json where
  | null
  | bool (b : Bool)
  | num (n : Int)
  | str (s : String)
  | arr (xs : List Json)
  | obj (fields : List (String × Json))

/-- Modelled from the spec: `sd_json_variant_by_key` — navigate an object by
key; returns NULL (here `none`) when the variant is not an object or the key
is absent. -/
def sd_json_variant_by_key (v : Json) (k : String) : Option Json :=
  match v with
  | .obj fields => (fields.find? (fun p => p.1 = k)).map Prod.snd
  | _ => none

/-- Modelled from the spec: `sd_json_variant_is_array`. -/
def sd_json_variant_is_array : Json → Bool
  | .arr _ => true
  | _ => false

/-- Modelled from the spec: `sd_json_variant_is_string`. -/
def sd_json_variant_is_string : Json → Bool
  | .str _ => true
  | _ => false

/-- Modelled from the spec: `sd_json_variant_elements` — number of elements of
an array variant (0 for non-arrays). -/
def sd_json_variant_elements : Json → Nat
  | .arr xs => xs.length
  | _ => 0

/-- Modelled from the spec: `sd_json_variant_by_index` — navigate an array by
index; NULL (here `none`) when out of range or not an array. -/
def sd_json_variant_by_index : Json → Nat → Option Json
  | .arr xs, i => xs.get? i
  | _, _ => none

/-- Modelled from the spec: `sd_json_variant_string` — the string value of a
string variant, NULL (here `none`) for non-strings. -/
def sd_json_variant_string : Json → Option String
  | .str s => some s
  | _ => none

/-- Modelled from the spec: `streq_ptr` — C string equality where a NULL
pointer compares equal only to NULL. -/
def streq_ptr (a b : Option String) : Bool :=
  a = b

/-- Machine `int` upper bound (32-bit), used by `safe_atoi` range checking. -/
def INT_MAX : Int := 2 ^ 31 - 1

/-- Machine `int` lower bound (32-bit). -/
def INT_MIN : Int := -(2 ^ 31)

/-- Modelled from the spec: `safe_atoi` from systemd's parse-util (declared in
parse-util.h; its definition is not part of this source file).  Parses a
decimal integer with optional sign, rejects empty strings and any
non-digit character (`EINVAL`), and fails with `ERANGE` when the value does
not fit a machine `int`. -/
def safe_atoi (s : String) : Except Errno Int :=
  let cs := s.toList
  let neg : Bool := cs.head? == some '-'
  let pos : Bool := cs.head? == some '+'
  let ds := if neg || pos then cs.tail else cs
  if ds.isEmpty || !(ds.all Char.isDigit) then .error .EINVAL
  else
    let m : Nat := ds.foldl (fun a c => a * 10 + (c.toNat - ('0').toNat)) 0
    let val : Int := if neg then -(m : Int) else (m : Int)
    if val < INT_MIN || INT_MAX < val then .error .ERANGE
    else .ok val

/-- `cryptsetup_get_keyslot_from_token` (cryptsetup-util.c:330-357): parses the
`"keyslots"` field of a LUKS2 token object, assuming a single-element array of
one decimal string.  Returns the keyslot (a non-negative int) or a negative
errno.  Faithful to the source: no backend-availability gate is consulted. -/
def cryptsetup_get_keyslot_from_token (v : Json) : Except Errno Int :=
  match sd_json_variant_by_key v ("keyslots") with
  | none => .error .ENOENT
  | some w =>
    if !(sd_json_variant_is_array w) || sd_json_variant_elements w != 1 then
      .error .EMEDIUMTYPE
    else
      match sd_json_variant_by_index w 0 with
      | none => .error .ENOENT
      | some x =>
        if !(sd_json_variant_is_string x) then .error .EMEDIUMTYPE
        else
          match safe_atoi ((sd_json_variant_string x).getD ("")) with
          | .error e => .error e
          | .ok keyslot =>
            if keyslot < 0 then .error .EINVAL
            else .ok keyslot

/-- State of the one-time backend symbol resolution (`cryptsetup_dl` plus the
spec's result cache). -/
inductive GateCache where
  | unresolved
  | loaded
  | failed (e : Errno)
  deriving DecidableEq, Repr

/-- Process-wide state touched by this layer: the gate cache, a
resolution-attempt counter (the spec's observable), and the log-callback /
debug-level installations done by `cryptsetup_enable_logging`. -/
structure St where
  cache : GateCache
  attempts : Nat
  globalLogCb : Bool
  handleLogCb : List Nat
  debugLevelSet : Bool
  deriving DecidableEq, Repr

/-- The body of `cryptsetup_enable_logging` after a successful gate check
(cryptsetup-util.c:140-141): install the glue callback process-wide (`none`)
or for one handle (`some h`), and set the backend debug level. -/
def installLogging (cd : Option Nat) (s : St) : St :=
  match cd with
  | none => { s with globalLogCb := true, debugLevelSet := true }
  | some h => { s with handleLogCb := h :: s.handleLogCb, debugLevelSet := true }

/-- `dlopen_cryptsetup` (cryptsetup-util.c:243-328).  Modelled from the spec
for the parts outside this file: `dlopen_many_sym_or_warn` performs the
symbol resolution (its outcome is the `probe` argument) and, per spec §4.1 and
§5, the result is cached — "re-initialization after a first hard failure is
not attempted".  On success the source calls `cryptsetup_enable_logging(NULL)`
(line 323); the inner recursive gate check trivially succeeds then, so that
call is exactly `installLogging none`.  When the backend is compiled out the
source returns `-EOPNOTSUPP` — that is the `probe = .error .EOPNOTSUPP`
instance. -/
def dlopen_cryptsetup (probe : Except Errno Unit) (s : St) : Except Errno Unit × St :=
  match s.cache with
  | .loaded => (.ok (), s)
  | .failed e => (.error e, s)
  | .unresolved =>
    match probe with
    | .ok _ =>
      (.ok (), installLogging none { s with cache := .loaded, attempts := s.attempts + 1 })
    | .error e =>
      (.error e, { s with cache := .failed e, attempts := s.attempts + 1 })

/-- `cryptsetup_enable_logging` (cryptsetup-util.c:127-142): returns `void`;
a gate failure is swallowed (early `return`) and the function degrades to not
installing anything. -/
def cryptsetup_enable_logging (probe : Except Errno Unit) (cd : Option Nat) (s : St) : St :=
  match dlopen_cryptsetup probe s with
  | (.error _, s1) => s1
  | (.ok _, s1) => installLogging cd s1

/-- Backend log severity `CRYPT_LOG_NORMAL` (libcryptsetup.h). -/
def CRYPT_LOG_NORMAL : Int := 0

/-- Backend log severity `CRYPT_LOG_ERROR` (libcryptsetup.h). -/
def CRYPT_LOG_ERROR : Int := 1

/-- Backend log severity `CRYPT_LOG_VERBOSE` (libcryptsetup.h). -/
def CRYPT_LOG_VERBOSE : Int := 2

/-- Backend log severity `CRYPT_LOG_DEBUG` (libcryptsetup.h). -/
def CRYPT_LOG_DEBUG : Int := 3

/-- Host syslog level `LOG_ERR`. -/
def LOG_ERR : Int := 3

/-- Host syslog level `LOG_NOTICE`. -/
def LOG_NOTICE : Int := 5

/-- Host syslog level `LOG_INFO`. -/
def LOG_INFO : Int := 6

/-- Host syslog level `LOG_DEBUG`. -/
def LOG_DEBUG : Int := 7

/-- One message handed to the unified logger: host level plus text. -/
structure LogEntry where
  level : Int
  msg : String
  deriving DecidableEq, Repr

/-- `cryptsetup_log_glue` (cryptsetup-util.c:104-125): translates a backend
severity into a host level and forwards the message; an unrecognized severity
first emits a `log_error` diagnostic naming the value, then logs the message
at `LOG_ERR`.  The returned list is the sequence of messages handed to the
unified logger. -/
def cryptsetup_log_glue (level : Int) (msg : String) : List LogEntry :=
  if level = CRYPT_LOG_NORMAL then [⟨LOG_NOTICE, msg⟩]
  else if level = CRYPT_LOG_ERROR then [⟨LOG_ERR, msg⟩]
  else if level = CRYPT_LOG_VERBOSE then [⟨LOG_INFO, msg⟩]
  else if level = CRYPT_LOG_DEBUG then [⟨LOG_DEBUG, msg⟩]
  else [⟨LOG_ERR, ("Unknown libcryptsetup log level: ") ++ toString level⟩, ⟨LOG_ERR, msg⟩]

/-- Modelled from the spec: the backend token store of one `struct
crypt_device`.  Indices run over `[0, token_max)`; each slot holds the token's
JSON text or is free. -/
structure crypt_device where
  tokens : List (Option String)
  deriving DecidableEq, Repr

/-- The backend-defined token index bound (spec: "Tokens are indexed
`[0, token_max)`"). -/
def token_max (cd : crypt_device) : Nat :=
  cd.tokens.length

/-- Modelled from the spec and the source's documented error contract
(cryptsetup-util.c:184-190): `crypt_token_json_get` returns `-EINVAL` when the
index is out of range, `-ENOENT` when no token exists at that index, and the
stored JSON text otherwise. -/
def crypt_token_json_get (cd : crypt_device) (idx : Int) : Except Errno String :=
  if idx < 0 || (token_max cd : Int) ≤ idx then .error .EINVAL
  else
    match cd.tokens.getD idx.toNat none with
    | none => .error .ENOENT
    | some text => .ok text

/-- First free slot of a token store, if any. -/
def firstFreeIndex : List (Option String) → Option Nat
  | [] => none
  | none :: _ => some 0
  | some _ :: rest => (firstFreeIndex rest).map (· + 1)

/-- Modelled from the spec: `crypt_token_json_set` with `CRYPT_ANY_TOKEN`
("writes at the next free index (or the backend's any allocation semantics)";
rejection, e.g. metadata area full, leaves prior content intact). -/
def crypt_token_json_set_any (cd : crypt_device) (text : String) :
    Except Errno crypt_device :=
  match firstFreeIndex cd.tokens with
  | none => .error .ENOSPC
  | some i => .ok ⟨cd.tokens.set i (some text)⟩

/-- `cryptsetup_get_token_as_json` (cryptsetup-util.c:172-219): gate check,
backend read, JSON parse (the external parser is the `parse` argument), then
— only when `verify_type` was supplied — the `"type"` field check: absent
field is `-EINVAL`, a stored type not string-equal to `verify_type` is
`-EMEDIUMTYPE` (`streq_ptr` against a NULL string for non-string types never
matches). -/
def cryptsetup_get_token_as_json
    (probe : Except Errno Unit) (parse : String → Except Errno Json)
    (cd : crypt_device) (idx : Int) (verify_type : Option String) (s : St) :
    Except Errno Json × St :=
  match dlopen_cryptsetup probe s with
  | (.error e, s1) => (.error e, s1)
  | (.ok _, s1) =>
    match crypt_token_json_get cd idx with
    | .error e => (.error e, s1)
    | .ok text =>
      match parse text with
      | .error e => (.error e, s1)
      | .ok v =>
        match verify_type with
        | none => (.ok v, s1)
        | some vt =>
          match sd_json_variant_by_key v ("type") with
          | none => (.error .EINVAL, s1)
          | some w =>
            if !(streq_ptr (sd_json_variant_string w) (some vt)) then
              (.error .EMEDIUMTYPE, s1)
            else (.ok v, s1)

/-- `cryptsetup_add_token_json` (cryptsetup-util.c:221-240): gate check,
serialize via the external `sd_json_variant_format` (the `fmt` argument),
then one backend write at the backend's any-free-index allocation.  The last
component counts backend write calls issued, so "no write was issued" is
observable. -/
def cryptsetup_add_token_json
    (probe : Except Errno Unit) (fmt : Json → Except Errno String)
    (cd : crypt_device) (v : Json) (s : St) :
    Except Errno Unit × St × crypt_device × Nat :=
  match dlopen_cryptsetup probe s with
  | (.error e, s1) => (.error e, s1, cd, 0)
  | (.ok _, s1) =>
    match fmt v with
    | .error e => (.error e, s1, cd, 0)
    | .ok text =>
      match crypt_token_json_set_any cd text with
      | .error e => (.error e, s1, cd, 1)
      | .ok cd1 => (.ok (), s1, cd1, 1)

/-- Backend KDF type constant `CRYPT_KDF_PBKDF2` (libcryptsetup.h). -/
def CRYPT_KDF_PBKDF2 : String := "pbkdf2"

/-- Backend flag `CRYPT_PBKDF_NO_BENCHMARK` (libcryptsetup.h, bit 1):
suppresses KDF auto-benchmarking. -/
def CRYPT_PBKDF_NO_BENCHMARK : Nat := 2

/-- The backend's `struct crypt_pbkdf_type` value object: {hash algorithm,
KDF type, iteration count, flags}. -/
structure crypt_pbkdf_type where
  hash : String
  type : String
  iterations : Nat
  flags : Nat
  deriving DecidableEq, Repr

/-- The fixed policy literal `minimal_pbkdf` from
`cryptsetup_set_minimal_pbkdf` (cryptsetup-util.c:149-155). -/
def minimal_pbkdf : crypt_pbkdf_type :=
  { hash := "sha512"
  , type := CRYPT_KDF_PBKDF2
  , iterations := 1000
  , flags := CRYPT_PBKDF_NO_BENCHMARK }

/-- `cryptsetup_set_minimal_pbkdf` (cryptsetup-util.c:144-170): gate check,
then `crypt_set_pbkdf_type(cd, &minimal_pbkdf)` (the backend's acceptance is
the `backend` argument).  The last component records the policy actually
handed to the backend (`none` when no call was made). -/
def cryptsetup_set_minimal_pbkdf
    (probe : Except Errno Unit) (backend : crypt_pbkdf_type → Except Errno Unit)
    (s : St) : Except Errno Unit × St × Option crypt_pbkdf_type :=
  match dlopen_cryptsetup probe s with
  | (.error e, s1) => (.error e, s1, none)
  | (.ok _, s1) =>
    match backend minimal_pbkdf with
    | .error e => (.error e, s1, some minimal_pbkdf)
    | .ok _ => (.ok (), s1, some minimal_pbkdf)

theorem dlopen_of_loaded (probe : Except Errno Unit) (s : St) (h : s.cache = .loaded) :
    dlopen_cryptsetup probe s = (.ok (), s) := by
  simp [dlopen_cryptsetup, h]

theorem dlopen_of_failed (probe : Except Errno Unit) (s : St) (e : Errno)
    (h : s.cache = .failed e) : dlopen_cryptsetup probe s = (.error e, s) := by
  simp [dlopen_cryptsetup, h]

theorem safe_atoi_error_cases (s : String) (e : Errno) (h : safe_atoi s = .error e) :
    e = .EINVAL ∨ e = .ERANGE := by
  simp only [safe_atoi] at h
  repeat' split at h
  all_goals
    first
      | exact Or.inl (Except.error.inj h).symm
      | exact Or.inr (Except.error.inj h).symm
      | exact absurd h (by simp)

/-- Claim C3: `cryptsetup_get_keyslot_from_token` fails `ENOENT` (NotFound)
when the `"keyslots"` field is absent; fails `EMEDIUMTYPE` (TypeMismatch) when
that field is not an array of exactly one element or the single element is not
a string; fails `EINVAL` (IndexInvalid) when the element parses to a negative
integer; and propagates the parse error when the string is not a valid
integer. -/
theorem get_keyslot_from_token_error_cases (v : Json) :
    (sd_json_variant_by_key v ("keyslots") = none →
      cryptsetup_get_keyslot_from_token v = .error .ENOENT) ∧
    (∀ w, sd_json_variant_by_key v ("keyslots") = some w →
      sd_json_variant_is_array w = false ∨ sd_json_variant_elements w ≠ 1 →
      cryptsetup_get_keyslot_from_token v = .error .EMEDIUMTYPE) ∧
    (∀ x, sd_json_variant_by_key v ("keyslots") = some (Json.arr [x]) →
      sd_json_variant_is_string x = false →
      cryptsetup_get_keyslot_from_token v = .error .EMEDIUMTYPE) ∧
    (∀ str k, sd_json_variant_by_key v ("keyslots") = some (Json.arr [Json.str str]) →
      safe_atoi str = .ok k → k < 0 →
      cryptsetup_get_keyslot_from_token v = .error .EINVAL) ∧
    (∀ str e, sd_json_variant_by_key v ("keyslots") = some (Json.arr [Json.str str]) →
      safe_atoi str = .error e →
      cryptsetup_get_keyslot_from_token v = .error e) := by
  refine ⟨?_, ?_, ?_, ?_, ?_⟩
  · intro h
    simp [cryptsetup_get_keyslot_from_token, h]
  · intro w hw hcond
    rcases hcond with h | h <;>
      simp [cryptsetup_get_keyslot_from_token, hw, h]
  · intro x hx hstr
    simp [cryptsetup_get_keyslot_from_token, hx, sd_json_variant_is_array,
      sd_json_variant_elements, sd_json_variant_by_index, hstr]
  · intro str k hk hatoi hneg
    simp [cryptsetup_get_keyslot_from_token, hk, sd_json_variant_is_array,
      sd_json_variant_elements, sd_json_variant_by_index, sd_json_variant_is_string,
      sd_json_variant_string, hatoi, hneg]
  · intro str e hk hatoi
    simp [cryptsetup_get_keyslot_from_token, hk, sd_json_variant_is_array,
      sd_json_variant_elements, sd_json_variant_by_index, sd_json_variant_is_string,
      sd_json_variant_string, hatoi]

/-- Claim C3 witness: the spec's concrete examples — missing `"keyslots"` is
NotFound, `["3","4"]` is TypeMismatch, a non-string element is TypeMismatch,
`["-1"]` is IndexInvalid, and a non-numeric string propagates `EINVAL` from
the integer parser. -/
theorem get_keyslot_from_token_error_cases_witness :
    cryptsetup_get_keyslot_from_token (Json.obj []) = .error .ENOENT ∧
    cryptsetup_get_keyslot_from_token
      (Json.obj [(("keyslots"), Json.arr [Json.str ("3"), Json.str ("4")])]) =
      .error .EMEDIUMTYPE ∧
    cryptsetup_get_keyslot_from_token
      (Json.obj [(("keyslots"), Json.arr [Json.num 3])]) = .error .EMEDIUMTYPE ∧
    cryptsetup_get_keyslot_from_token
      (Json.obj [(("keyslots"), Json.arr [Json.str ("-1")])]) = .error .EINVAL ∧
    cryptsetup_get_keyslot_from_token
      (Json.obj [(("keyslots"), Json.arr [Json.str ("zap")])]) = .error .EINVAL := by
  refine ⟨(get_keyslot_from_token_error_cases (Json.obj [])).1 rfl,
    (get_keyslot_from_token_error_cases _).2.1 _ rfl (Or.inr (by simp [sd_json_variant_elements])),
    (get_keyslot_from_token_error_cases _).2.2.1 _ rfl rfl,
    (get_keyslot_from_token_error_cases _).2.2.2.1 _ (-1) rfl (by rfl) (by decide),
    (get_keyslot_from_token_error_cases _).2.2.2.2 _ .EINVAL rfl (by rfl)⟩

/-- Claim C4: on a token whose `"keyslots"` field is an array of exactly one
string parsing as a non-negative integer `k`, `cryptsetup_get_keyslot_from_token`
succeeds and returns `k`. -/
theorem get_keyslot_from_token_success (v : Json) (str : String) (k : Int)
    (hk : sd_json_variant_by_key v ("keyslots") = some (Json.arr [Json.str str]))
    (hatoi : safe_atoi str = .ok k) (hpos : 0 ≤ k) :
    cryptsetup_get_keyslot_from_token v = .ok k := by
  have hneg : ¬ k < 0 := not_lt.mpr hpos
  simp [cryptsetup_get_keyslot_from_token, hk, sd_json_variant_is_array,
    sd_json_variant_elements, sd_json_variant_by_index, sd_json_variant_is_string,
    sd_json_variant_string, hatoi, hneg]

/-- Claim C4 witness: `{"keyslots": ["3"]}` yields keyslot `3`. -/
theorem get_keyslot_from_token_success_witness :
    cryptsetup_get_keyslot_from_token
      (Json.obj [(("keyslots"), Json.arr [Json.str ("3")])]) = .ok 3 :=
  get_keyslot_from_token_success _ ("3") 3 rfl (by rfl) (by decide)

/-- Claim C5: `cryptsetup_set_minimal_pbkdf` only ever hands the fixed policy
{hash "sha512", type PBKDF2, iterations 1000, benchmarking suppressed} to the
backend — whatever the gate, backend and prior state do, the applied policy is
either nothing (gate failed) or exactly that literal. -/
theorem set_minimal_pbkdf_fixed_policy (probe : Except Errno Unit)
    (backend : crypt_pbkdf_type → Except Errno Unit) (s : St) :
    ((cryptsetup_set_minimal_pbkdf probe backend s).2.2 = none ∨
      (cryptsetup_set_minimal_pbkdf probe backend s).2.2 =
        some { hash := "sha512", type := CRYPT_KDF_PBKDF2, iterations := 1000,
               flags := CRYPT_PBKDF_NO_BENCHMARK }) ∧
    minimal_pbkdf.hash = "sha512" ∧
    minimal_pbkdf.type = CRYPT_KDF_PBKDF2 ∧
    minimal_pbkdf.iterations = 1000 ∧
    minimal_pbkdf.flags = CRYPT_PBKDF_NO_BENCHMARK := by
  refine ⟨?_, rfl, rfl, rfl, rfl⟩
  cases hd : dlopen_cryptsetup probe s with
  | mk r s1 =>
    cases r with
    | error e => simp [cryptsetup_set_minimal_pbkdf, hd]
    | ok u =>
      cases hb : backend minimal_pbkdf with
      | error e =>
        simp only [cryptsetup_set_minimal_pbkdf, hd, hb]
        exact Or.inr rfl
      | ok u2 =>
        simp only [cryptsetup_set_minimal_pbkdf, hd, hb]
        exact Or.inr rfl

/-- Claim C8: `cryptsetup_log_glue` maps backend severity normal to host
level notice, error to error, verbose to info, debug to debug; any other
severity emits a diagnostic naming the unrecognized value and logs the
message at error level. -/
theorem log_glue_severity_mapping :
    (∀ msg, cryptsetup_log_glue CRYPT_LOG_NORMAL msg = [⟨LOG_NOTICE, msg⟩]) ∧
    (∀ msg, cryptsetup_log_glue CRYPT_LOG_ERROR msg = [⟨LOG_ERR, msg⟩]) ∧
    (∀ msg, cryptsetup_log_glue CRYPT_LOG_VERBOSE msg = [⟨LOG_INFO, msg⟩]) ∧
    (∀ msg, cryptsetup_log_glue CRYPT_LOG_DEBUG msg = [⟨LOG_DEBUG, msg⟩]) ∧
    (∀ level msg, level ≠ CRYPT_LOG_NORMAL → level ≠ CRYPT_LOG_ERROR →
      level ≠ CRYPT_LOG_VERBOSE → level ≠ CRYPT_LOG_DEBUG →
      cryptsetup_log_glue level msg =
        [⟨LOG_ERR, ("Unknown libcryptsetup log level: ") ++ toString level⟩,
         ⟨LOG_ERR, msg⟩]) := by
  refine ⟨fun msg => ?_, fun msg => ?_, fun msg => ?_, fun msg => ?_,
    fun level msg h0 h1 h2 h3 => ?_⟩
  · simp [cryptsetup_log_glue, CRYPT_LOG_NORMAL, CRYPT_LOG_ERROR]
  · simp [cryptsetup_log_glue, CRYPT_LOG_NORMAL, CRYPT_LOG_ERROR]
  · simp [cryptsetup_log_glue, CRYPT_LOG_NORMAL, CRYPT_LOG_ERROR, CRYPT_LOG_VERBOSE]
  · simp [cryptsetup_log_glue, CRYPT_LOG_NORMAL, CRYPT_LOG_ERROR, CRYPT_LOG_VERBOSE,
      CRYPT_LOG_DEBUG]
  · simp [cryptsetup_log_glue, h0, h1, h2, h3]

/-- Claim C8 witness: severity 42 is unrecognized — a diagnostic naming 42 is
emitted and the message is logged at `LOG_ERR`; severity 0 maps to notice. -/
theorem log_glue_severity_mapping_witness :
    cryptsetup_log_glue 0 ("hello") = [⟨LOG_NOTICE, ("hello")⟩] ∧
    cryptsetup_log_glue 42 ("boom") =
      [⟨LOG_ERR, ("Unknown libcryptsetup log level: ") ++ toString (42 : Int)⟩,
       ⟨LOG_ERR, ("boom")⟩] :=
  ⟨log_glue_severity_mapping.1 ("hello"),
   log_glue_severity_mapping.2.2.2.2 42 ("boom")
     (by decide) (by decide) (by decide) (by decide)⟩

/-- Claim C2: a first gate probe that hard-fails with `e` returns `e` and
advances the resolution-attempt counter once; every later call — whatever its
probe would do — returns the identical error with the state (so also the
attempt counter) unchanged: the failure is cached and resolution is never
re-attempted. -/
theorem dlopen_failure_cached (s0 : St) (e : Errno) (probe2 : Except Errno Unit)
    (h : s0.cache = .unresolved) :
    (dlopen_cryptsetup (.error e) s0).1 = .error e ∧
    (dlopen_cryptsetup (.error e) s0).2.attempts = s0.attempts + 1 ∧
    dlopen_cryptsetup probe2 (dlopen_cryptsetup (.error e) s0).2 =
      (.error e, (dlopen_cryptsetup (.error e) s0).2) := by
  simp [dlopen_cryptsetup, h]

/-- Claim C2 witness: starting unresolved with zero attempts, a failed probe
(`EOPNOTSUPP`, backend not available) is returned; the second call returns the
identical error with the attempt counter still at 1, even though its own probe
would have succeeded. -/
theorem dlopen_failure_cached_witness :
    (dlopen_cryptsetup (.error .EOPNOTSUPP) ⟨.unresolved, 0, false, [], false⟩).1 =
      .error .EOPNOTSUPP ∧
    (dlopen_cryptsetup (.error .EOPNOTSUPP) ⟨.unresolved, 0, false, [], false⟩).2.attempts =
      0 + 1 ∧
    dlopen_cryptsetup (.ok ())
        (dlopen_cryptsetup (.error .EOPNOTSUPP) ⟨.unresolved, 0, false, [], false⟩).2 =
      (.error .EOPNOTSUPP,
        (dlopen_cryptsetup (.error .EOPNOTSUPP) ⟨.unresolved, 0, false, [], false⟩).2) :=
  dlopen_failure_cached ⟨.unresolved, 0, false, [], false⟩ .EOPNOTSUPP (.ok ()) rfl

/-- Claim C1 counterexample: when no expected type is supplied, a stored token
whose object lacks a `"type"` field is returned successfully — it does not
fail `EINVAL` (IndexInvalid), contradicting "regardless of whether an
expected_type argument was supplied".  The device holds one token at index 0;
the external parser yields an object with only a `"keyslots"` field. -/
theorem get_token_missing_type_without_verify_succeeds :
    (cryptsetup_get_token_as_json (.ok ())
        (fun _ => .ok (Json.obj [(("keyslots"), Json.arr [Json.str ("0")])]))
        ⟨[some ("stored")]⟩ 0 none ⟨.loaded, 1, true, [], true⟩).1 =
      .ok (Json.obj [(("keyslots"), Json.arr [Json.str ("0")])]) ∧
    sd_json_variant_by_key
        (Json.obj [(("keyslots"), Json.arr [Json.str ("0")])]) ("type") = none ∧
    (cryptsetup_get_token_as_json (.ok ())
        (fun _ => .ok (Json.obj [(("keyslots"), Json.arr [Json.str ("0")])]))
        ⟨[some ("stored")]⟩ 0 none ⟨.loaded, 1, true, [], true⟩).1 ≠
      .error .EINVAL := by
  exact ⟨rfl, rfl, fun hcontra => Except.noConfusion hcontra⟩

/-- Claim C1 (amended): with the backend available, `cryptsetup_get_token_as_json`
fails `EINVAL` (IndexInvalid) for every index outside `[0, token_max)` and
fails `ENOENT` (NotFound) when no token exists at an in-range index — both
regardless of the expected-type argument; a stored token object lacking a
`"type"` field fails `EINVAL` only when an expected type was supplied. -/
theorem get_token_error_conditions
    (probe : Except Errno Unit) (parse : String → Except Errno Json)
    (cd : crypt_device) (idx : Int) (vt : Option String) (s : St)
    (hs : s.cache = .loaded) :
    ((idx < 0 ∨ (token_max cd : Int) ≤ idx) →
      (cryptsetup_get_token_as_json probe parse cd idx vt s).1 = .error .EINVAL) ∧
    (0 ≤ idx → idx < (token_max cd : Int) → cd.tokens.getD idx.toNat none = none →
      (cryptsetup_get_token_as_json probe parse cd idx vt s).1 = .error .ENOENT) ∧
    (∀ text v t, crypt_token_json_get cd idx = .ok text → parse text = .ok v →
      sd_json_variant_by_key v ("type") = none → vt = some t →
      (cryptsetup_get_token_as_json probe parse cd idx vt s).1 = .error .EINVAL) := by
  have hdl := dlopen_of_loaded probe s hs
  refine ⟨fun hrange => ?_, fun h0 hlt hnone => ?_, fun text v t htext hparse hty hvt => ?_⟩
  · have hget : crypt_token_json_get cd idx = .error .EINVAL := by
      have hc : (decide (idx < 0) || decide ((token_max cd : Int) ≤ idx)) = true := by
        rcases hrange with h | h <;> simp [h]
      unfold crypt_token_json_get
      rw [if_pos hc]
    simp [cryptsetup_get_token_as_json, hdl, hget]
  · have hget : crypt_token_json_get cd idx = .error .ENOENT := by
      have hc : ¬ ((decide (idx < 0) || decide ((token_max cd : Int) ≤ idx)) = true) := by
        simp only [Bool.or_eq_true, decide_eq_true_eq]
        push_neg
        exact ⟨h0, hlt⟩
      unfold crypt_token_json_get
      rw [if_neg hc, hnone]
    simp [cryptsetup_get_token_as_json, hdl, hget]
  · subst hvt
    simp [cryptsetup_get_token_as_json, hdl, htext, hparse, hty]

/-- Claim C1 (amended) witness: on a one-slot device, index 5 is IndexInvalid;
an in-range empty slot is NotFound (both with no expected type); and a stored
token parsed to an object without `"type"` is IndexInvalid once an expected
type is supplied. -/
theorem get_token_error_conditions_witness :
    (cryptsetup_get_token_as_json (.ok ()) (fun _ => .ok Json.null)
        ⟨[some ("stored")]⟩ 5 none ⟨.loaded, 1, true, [], true⟩).1 = .error .EINVAL ∧
    (cryptsetup_get_token_as_json (.ok ()) (fun _ => .ok Json.null)
        ⟨[none]⟩ 0 none ⟨.loaded, 1, true, [], true⟩).1 = .error .ENOENT ∧
    (cryptsetup_get_token_as_json (.ok ()) (fun _ => .ok (Json.obj []))
        ⟨[some ("stored")]⟩ 0 (some ("luks2-foo")) ⟨.loaded, 1, true, [], true⟩).1 =
      .error .EINVAL :=
  ⟨(get_token_error_conditions (.ok ()) (fun _ => .ok Json.null)
      ⟨[some ("stored")]⟩ 5 none ⟨.loaded, 1, true, [], true⟩ rfl).1
      (Or.inr (by decide)),
   (get_token_error_conditions (.ok ()) (fun _ => .ok Json.null)
      ⟨[none]⟩ 0 none ⟨.loaded, 1, true, [], true⟩ rfl).2.1
      (by decide) (by decide) rfl,
   (get_token_error_conditions (.ok ()) (fun _ => .ok (Json.obj []))
      ⟨[some ("stored")]⟩ 0 (some ("luks2-foo")) ⟨.loaded, 1, true, [], true⟩ rfl).2.2
      ("stored") (Json.obj []) ("luks2-foo") rfl rfl rfl rfl⟩

/-- Claim C6: with a token stored and parsed, and its `"type"` field present,
supplying an expected type that is not string-equal to the stored type value
fails `EMEDIUMTYPE` (TypeMismatch) — a non-string stored type, whose string
value is NULL, never matches — while an equal stored type succeeds and returns
the fully parsed JSON value. -/
theorem get_token_type_verification
    (probe : Except Errno Unit) (parse : String → Except Errno Json)
    (cd : crypt_device) (idx : Int) (s : St) (hs : s.cache = .loaded)
    (text : String) (v w : Json) (vt : String)
    (htext : crypt_token_json_get cd idx = .ok text)
    (hparse : parse text = .ok v)
    (hw : sd_json_variant_by_key v ("type") = some w) :
    (sd_json_variant_string w ≠ some vt →
      (cryptsetup_get_token_as_json probe parse cd idx (some vt) s).1 =
        .error .EMEDIUMTYPE) ∧
    (sd_json_variant_string w = some vt →
      (cryptsetup_get_token_as_json probe parse cd idx (some vt) s).1 = .ok v) := by
  have hdl := dlopen_of_loaded probe s hs
  constructor
  · intro hne
    simp [cryptsetup_get_token_as_json, hdl, htext, hparse, hw, streq_ptr, hne]
  · intro heq
    simp [cryptsetup_get_token_as_json, hdl, htext, hparse, hw, streq_ptr, heq]

/-- Claim C6 witness: a stored token `{"type": "luks2-bar"}` checked against
expected type "luks2-foo" is TypeMismatch; checked against "luks2-bar" the
parsed value is returned. -/
theorem get_token_type_verification_witness :
    (cryptsetup_get_token_as_json (.ok ())
        (fun _ => .ok (Json.obj [(("type"), Json.str ("luks2-bar"))]))
        ⟨[some ("stored")]⟩ 0 (some ("luks2-foo")) ⟨.loaded, 1, true, [], true⟩).1 =
      .error .EMEDIUMTYPE ∧
    (cryptsetup_get_token_as_json (.ok ())
        (fun _ => .ok (Json.obj [(("type"), Json.str ("luks2-bar"))]))
        ⟨[some ("stored")]⟩ 0 (some ("luks2-bar")) ⟨.loaded, 1, true, [], true⟩).1 =
      .ok (Json.obj [(("type"), Json.str ("luks2-bar"))]) :=
  ⟨(get_token_type_verification (.ok ())
      (fun _ => .ok (Json.obj [(("type"), Json.str ("luks2-bar"))]))
      ⟨[some ("stored")]⟩ 0 ⟨.loaded, 1, true, [], true⟩ rfl
      ("stored") (Json.obj [(("type"), Json.str ("luks2-bar"))])
      (Json.str ("luks2-bar")) ("luks2-foo") rfl rfl rfl).1 (by simp [sd_json_variant_string]),
   (get_token_type_verification (.ok ())
      (fun _ => .ok (Json.obj [(("type"), Json.str ("luks2-bar"))]))
      ⟨[some ("stored")]⟩ 0 ⟨.loaded, 1, true, [], true⟩ rfl
      ("stored") (Json.obj [(("type"), Json.str ("luks2-bar"))])
      (Json.str ("luks2-bar")) ("luks2-bar") rfl rfl rfl).2 rfl⟩

/-- Claim C7: with the backend available, `cryptsetup_add_token_json` first
serializes the value and only then performs the backend write at the backend's
any-free-index allocation.  A serialization failure returns the serializer's
error with no backend write issued (write counter 0) and the store intact; a
backend rejection (no free slot: metadata full) returns the backend's
`ENOSPC` — a write was issued (counter 1) but not completed, the store is
intact; on success the compact text is written at the first free index.  The
failing step determines the error returned. -/
theorem add_token_json_error_separation
    (probe : Except Errno Unit) (fmt : Json → Except Errno String)
    (cd : crypt_device) (v : Json) (s : St) (hs : s.cache = .loaded) :
    (∀ e, fmt v = .error e →
      cryptsetup_add_token_json probe fmt cd v s = (.error e, s, cd, 0)) ∧
    (∀ text, fmt v = .ok text → firstFreeIndex cd.tokens = none →
      cryptsetup_add_token_json probe fmt cd v s = (.error .ENOSPC, s, cd, 1)) ∧
    (∀ text i, fmt v = .ok text → firstFreeIndex cd.tokens = some i →
      cryptsetup_add_token_json probe fmt cd v s =
        (.ok (), s, ⟨cd.tokens.set i (some text)⟩, 1)) := by
  have hdl := dlopen_of_loaded probe s hs
  refine ⟨fun e hf => ?_, fun text hf hfull => ?_, fun text i hf hfree => ?_⟩
  · simp [cryptsetup_add_token_json, hdl, hf]
  · simp [cryptsetup_add_token_json, hdl, hf, crypt_token_json_set_any, hfull]
  · simp [cryptsetup_add_token_json, hdl, hf, crypt_token_json_set_any, hfree]

/-- Claim C7 witness: a failing serializer returns its `ENOMEM` with zero
backend writes; with a successful serializer, a full one-slot store is
rejected `ENOSPC` leaving the slot intact, and a store with a free slot gets
the serialized text written there. -/
theorem add_token_json_error_separation_witness :
    cryptsetup_add_token_json (.ok ()) (fun _ => .error .ENOMEM)
        ⟨[some ("old")]⟩ Json.null ⟨.loaded, 1, true, [], true⟩ =
      (.error .ENOMEM, ⟨.loaded, 1, true, [], true⟩, ⟨[some ("old")]⟩, 0) ∧
    cryptsetup_add_token_json (.ok ()) (fun _ => .ok ("{}"))
        ⟨[some ("old")]⟩ Json.null ⟨.loaded, 1, true, [], true⟩ =
      (.error .ENOSPC, ⟨.loaded, 1, true, [], true⟩, ⟨[some ("old")]⟩, 1) ∧
    cryptsetup_add_token_json (.ok ()) (fun _ => .ok ("{}"))
        ⟨[none]⟩ Json.null ⟨.loaded, 1, true, [], true⟩ =
      (.ok (), ⟨.loaded, 1, true, [], true⟩, ⟨[some ("{}")]⟩, 1) :=
  ⟨(add_token_json_error_separation (.ok ()) (fun _ => .error .ENOMEM)
      ⟨[some ("old")]⟩ Json.null ⟨.loaded, 1, true, [], true⟩ rfl).1 .ENOMEM rfl,
   (add_token_json_error_separation (.ok ()) (fun _ => .ok ("{}"))
      ⟨[some ("old")]⟩ Json.null ⟨.loaded, 1, true, [], true⟩ rfl).2.1 ("{}") rfl rfl,
   (add_token_json_error_separation (.ok ()) (fun _ => .ok ("{}"))
      ⟨[none]⟩ Json.null ⟨.loaded, 1, true, [], true⟩ rfl).2.2 ("{}") 0 rfl rfl⟩

/-- Claim C9: a failure to install the logging bridge is swallowed —
`cryptsetup_enable_logging` is `void` and, when the gate has hard-failed,
returns with the state unchanged (in particular no callback installed) instead
of propagating the error; when an initial probe fails it records only the
cached failure, again installing nothing.  The other operations of this layer
(`cryptsetup_get_token_as_json`, `cryptsetup_add_token_json`,
`cryptsetup_set_minimal_pbkdf`) all propagate the same gate error to the
caller. -/
theorem enable_logging_swallows_gate_failure
    (probe : Except Errno Unit) (parse : String → Except Errno Json)
    (fmt : Json → Except Errno String) (backend : crypt_pbkdf_type → Except Errno Unit)
    (cdo : Option Nat) (cd : crypt_device) (idx : Int) (vt : Option String)
    (v : Json) (s : St) (e : Errno) (h : s.cache = .failed e) :
    cryptsetup_enable_logging probe cdo s = s ∧
    (cryptsetup_get_token_as_json probe parse cd idx vt s).1 = .error e ∧
    (cryptsetup_add_token_json probe fmt cd v s).1 = .error e ∧
    (cryptsetup_set_minimal_pbkdf probe backend s).1 = .error e ∧
    (∀ e2 s2, s2.cache = .unresolved →
      cryptsetup_enable_logging (.error e2) cdo s2 =
        { s2 with cache := .failed e2, attempts := s2.attempts + 1 }) := by
  have hdl := dlopen_of_failed probe s e h
  refine ⟨?_, ?_, ?_, ?_, fun e2 s2 h2 => ?_⟩
  · simp [cryptsetup_enable_logging, hdl]
  · simp [cryptsetup_get_token_as_json, hdl]
  · simp [cryptsetup_add_token_json, hdl]
  · simp [cryptsetup_set_minimal_pbkdf, hdl]
  · simp [cryptsetup_enable_logging, dlopen_cryptsetup, h2]

/-- Claim C9 witness: with the gate hard-failed `EOPNOTSUPP`, installing the
bridge (here process-wide) returns leaving the state untouched, while the
token and PBKDF operations propagate the error; from an unresolved gate a
failed probe leaves only the cached failure behind — still no callback. -/
theorem enable_logging_swallows_gate_failure_witness :
    cryptsetup_enable_logging (.ok ()) none ⟨.failed .EOPNOTSUPP, 1, false, [], false⟩ =
      ⟨.failed .EOPNOTSUPP, 1, false, [], false⟩ ∧
    (cryptsetup_get_token_as_json (.ok ()) (fun _ => .ok Json.null) ⟨[]⟩ 0 none
        ⟨.failed .EOPNOTSUPP, 1, false, [], false⟩).1 = .error .EOPNOTSUPP ∧
    (cryptsetup_add_token_json (.ok ()) (fun _ => .ok ("{}")) ⟨[]⟩ Json.null
        ⟨.failed .EOPNOTSUPP, 1, false, [], false⟩).1 = .error .EOPNOTSUPP ∧
    (cryptsetup_set_minimal_pbkdf (.ok ()) (fun _ => .ok ())
        ⟨.failed .EOPNOTSUPP, 1, false, [], false⟩).1 = .error .EOPNOTSUPP := by
  have h := enable_logging_swallows_gate_failure (.ok ()) (fun _ => .ok Json.null)
    (fun _ => .ok ("{}")) (fun _ => .ok ()) none ⟨[]⟩ 0 none Json.null
    ⟨.failed .EOPNOTSUPP, 1, false, [], false⟩ .EOPNOTSUPP rfl
  exact ⟨h.1, h.2.1, h.2.2.1, h.2.2.2.1⟩

/-- Claim C10: `cryptsetup_get_keyslot_from_token` is a pure function of the
JSON value — its embedding takes no process state, mirroring the source, which
never calls `dlopen_cryptsetup` — and for no input does it return the gate's
`EOPNOTSUPP` (Unsupported) error; by contrast, whenever the gate has failed
`EOPNOTSUPP`, `cryptsetup_get_token_as_json`, `cryptsetup_add_token_json` and
`cryptsetup_set_minimal_pbkdf` all abort with exactly that error. -/
theorem get_keyslot_from_token_ignores_gate :
    (∀ v, cryptsetup_get_keyslot_from_token v ≠ .error .EOPNOTSUPP) ∧
    (∀ (probe : Except Errno Unit) (parse : String → Except Errno Json)
        (fmt : Json → Except Errno String) (backend : crypt_pbkdf_type → Except Errno Unit)
        (cd : crypt_device) (idx : Int) (vt : Option String) (v : Json) (s : St),
      s.cache = .failed .EOPNOTSUPP →
      (cryptsetup_get_token_as_json probe parse cd idx vt s).1 = .error .EOPNOTSUPP ∧
      (cryptsetup_add_token_json probe fmt cd v s).1 = .error .EOPNOTSUPP ∧
      (cryptsetup_set_minimal_pbkdf probe backend s).1 = .error .EOPNOTSUPP) := by
  constructor
  · intro v
    unfold cryptsetup_get_keyslot_from_token
    cases hk : sd_json_variant_by_key v ("keyslots") with
    | none => simp
    | some w =>
      simp only []
      split
      · simp
      · cases hi : sd_json_variant_by_index w 0 with
        | none => simp
        | some x =>
          simp only []
          split
          · simp
          · cases ha : safe_atoi ((sd_json_variant_string x).getD ("")) with
            | error e =>
              rcases safe_atoi_error_cases _ e ha with he | he <;> simp [he]
            | ok k =>
              simp only []
              split <;> simp
  · intro probe parse fmt backend cd idx vt v s h
    have hdl := dlopen_of_failed probe s .EOPNOTSUPP h
    exact ⟨by simp [cryptsetup_get_token_as_json, hdl],
      by simp [cryptsetup_add_token_json, hdl],
      by simp [cryptsetup_set_minimal_pbkdf, hdl]⟩

/-- Claim C10 witness: on `{"keyslots": ["3"]}` the keyslot parser answers
`3` — not Unsupported — while, in a state whose gate hard-failed Unsupported,
the three gated operations all return `EOPNOTSUPP`. -/
theorem get_keyslot_from_token_ignores_gate_witness :
    cryptsetup_get_keyslot_from_token
      (Json.obj [(("keyslots"), Json.arr [Json.str ("3")])]) ≠ .error .EOPNOTSUPP ∧
    (cryptsetup_get_token_as_json (.ok ()) (fun _ => .ok Json.null) ⟨[]⟩ 0 none
        ⟨.failed .EOPNOTSUPP, 1, false, [], false⟩).1 = .error .EOPNOTSUPP := by
  have h2 := get_keyslot_from_token_ignores_gate.2 (.ok ()) (fun _ => .ok Json.null)
    (fun _ => .ok ("{}")) (fun _ => .ok ()) ⟨[]⟩ 0 none Json.null
    ⟨.failed .EOPNOTSUPP, 1, false, [], false⟩ rfl
  exact ⟨get_keyslot_from_token_ignores_gate.1
    (Json.obj [(("keyslots"), Json.arr [Json.str ("3")])]), h2.1⟩
